import Mathlib

/-!
Verification of the report ingestion, analytics, fingerprint cache and AI summary
generator of the shadow-hunter-ai repository.

The Python sources are shallowly embedded:
  * src/loader.py   : JSON values, schema validation, directory loading
  * src/analytics.py: KPI computation and report filtering
  * src/ai.py       : cache fingerprints, the persistent summary cache, the
                      transport retry policy and summary generation

Strings are compared, lowercased, trimmed and searched through explicit
recursions over their character lists so that every definition reduces in the
kernel; for the ASCII data handled by the program these agree with the Python
string operations (which compare by code point).
-/

set_option maxRecDepth 8000

namespace ShadowHunter

/-- ASCII whitespace test, modelling the default str.strip class of Python
(space, tab, newline, carriage return, vertical tab, form feed). -/
def isSpaceChar (c : Char) : Bool :=
  c = ' ' ∨ c = '\t' ∨ c = '\n' ∨ c = '\x0d' ∨ c = '\x0b' ∨ c = '\x0c'

/-- Model of the Python str.strip method: remove leading and trailing
whitespace. -/
def pyStrip (s : String) : String :=
  ⟨((s.data.dropWhile isSpaceChar).reverse.dropWhile isSpaceChar).reverse⟩

/-- Lower-case one ASCII character, as Python str.lower does on ASCII data. -/
def lowerChar (c : Char) : Char :=
  if 'A' ≤ c ∧ c ≤ 'Z' then Char.ofNat (c.toNat + 32) else c

/-- Upper-case one ASCII character, as Python str.upper does on ASCII data. -/
def upperChar (c : Char) : Char :=
  if 'a' ≤ c ∧ c ≤ 'z' then Char.ofNat (c.toNat - 32) else c

/-- Model of the Python str.lower method (ASCII fragment). -/
def pyLower (s : String) : String := ⟨s.data.map lowerChar⟩

/-- Model of the Python str.upper method (ASCII fragment). -/
def pyUpper (s : String) : String := ⟨s.data.map upperChar⟩

/-- Prefix test on character lists. -/
def prefixOfB : List Char → List Char → Bool
  | [], _ => true
  | _ :: _, [] => false
  | a :: as, b :: bs => a = b && prefixOfB as bs

/-- Occurrence test: does the first character list occur contiguously inside
the second?  Models the Python expression needle in hay. -/
def occursB (n : List Char) : List Char → Bool
  | [] => prefixOfB n []
  | b :: bs => prefixOfB n (b :: bs) || occursB n bs

/-- Substring test on strings, models the Python in operator on str. -/
def containsSub (needle hay : String) : Bool := occursB needle.data hay.data

/-- Suffix test on strings, models the Python str.endswith method. -/
def pyEndsWith (s suffix : String) : Bool :=
  prefixOfB suffix.data.reverse s.data.reverse

/-- The proposition that needle occurs contiguously inside hay, phrased with
string concatenation.  Used to state that a generated text includes a given
fragment. -/
def SubStr (needle hay : String) : Prop := ∃ p q, hay = p ++ needle ++ q

theorem strAppend_assoc (a b c : String) : a ++ b ++ c = a ++ (b ++ c) := by
  cases a with
  | mk da =>
    cases b with
    | mk db =>
      cases c with
      | mk dc => exact congrArg String.mk (List.append_assoc da db dc)

theorem strAppend_data (a b : String) : (a ++ b).data = a.data ++ b.data := by
  cases a; cases b; rfl

theorem prefixOfB_self_append (n q : List Char) : prefixOfB n (n ++ q) = true := by
  induction n with
  | nil => rfl
  | cons a as ih => simp [prefixOfB, ih]

theorem occursB_of_prefix {n h : List Char} (hp : prefixOfB n h = true) :
    occursB n h = true := by
  cases h with
  | nil => exact hp
  | cons b bs => simp [occursB, hp]

theorem occursB_append (p n q : List Char) : occursB n (p ++ n ++ q) = true := by
  induction p with
  | nil => simpa using occursB_of_prefix (prefixOfB_self_append n q)
  | cons a as ih =>
    rw [List.append_assoc] at ih
    simp [occursB, List.append_assoc, ih]

theorem SubStr.occurs {needle hay : String} (h : SubStr needle hay) :
    occursB needle.data hay.data = true := by
  rcases h with ⟨p, q, hpq⟩
  have : hay.data = p.data ++ needle.data ++ q.data := by
    rw [hpq, strAppend_data, strAppend_data]
  rw [this]
  exact occursB_append p.data needle.data q.data

/-- Strict lexicographic comparison of character lists by code point; this is
how Python compares strings. -/
def listLt : List Char → List Char → Bool
  | [], [] => false
  | [], _ :: _ => true
  | _ :: _, [] => false
  | a :: as, b :: bs => a < b || (a = b && listLt as bs)

/-- Strict string comparison by code point, modelling the Python comparison
of str values. -/
def strLtB (a b : String) : Bool := listLt a.data b.data

theorem listLt_asymm : ∀ {a b : List Char}, listLt a b = true → listLt b a = false
  | [], [], h => by simp [listLt] at h
  | [], _ :: _, _ => rfl
  | _ :: _, [], h => by simp [listLt] at h
  | a :: as, b :: bs, h => by
    simp only [listLt, Bool.or_eq_true, Bool.and_eq_true, decide_eq_true_eq] at h ⊢
    rcases h with h | ⟨hab, h⟩
    · simp only [Bool.or_eq_false_iff, Bool.and_eq_false_iff]
      constructor
      · simpa using not_lt_of_lt h
      · left
        simpa using (ne_of_gt h)
    · subst hab
      simp only [Bool.or_eq_false_iff, Bool.and_eq_false_iff]
      constructor
      · simp
      · right
        exact listLt_asymm h

theorem listLt_connex : ∀ {a b : List Char}, a ≠ b →
    listLt a b = true ∨ listLt b a = true
  | [], [], h => absurd rfl h
  | [], _ :: _, _ => Or.inl rfl
  | _ :: _, [], _ => Or.inr rfl
  | a :: as, b :: bs, h => by
    by_cases hab : a = b
    · subst hab
      have : as ≠ bs := fun he => h (by rw [he])
      rcases listLt_connex this with h1 | h1
      · exact Or.inl (by simp [listLt, h1])
      · exact Or.inr (by simp [listLt, h1])
    · rcases lt_or_gt_of_ne hab with h1 | h1
      · exact Or.inl (by simp [listLt, h1])
      · exact Or.inr (by simp [listLt, h1])

theorem listLt_trans : ∀ {a b c : List Char},
    listLt a b = true → listLt b c = true → listLt a c = true
  | [], [], _, h, _ => by simp [listLt] at h
  | [], _ :: _, [], _, h => by simp [listLt] at h
  | [], _ :: _, _ :: _, _, _ => rfl
  | _ :: _, [], _, h, _ => by simp [listLt] at h
  | _ :: _, _ :: _, [], _, h => by simp [listLt] at h
  | a :: as, b :: bs, c :: cs, h1, h2 => by
    simp only [listLt, Bool.or_eq_true, Bool.and_eq_true, decide_eq_true_eq] at h1 h2 ⊢
    rcases h1 with h1 | ⟨hab, h1⟩
    · rcases h2 with h2 | ⟨hbc, h2⟩
      · exact Or.inl (lt_trans h1 h2)
      · subst hbc
        exact Or.inl h1
    · subst hab
      rcases h2 with h2 | ⟨hbc, h2⟩
      · exact Or.inl h2
      · subst hbc
        exact Or.inr ⟨rfl, listLt_trans h1 h2⟩

theorem listLt_irrefl : ∀ {a : List Char}, listLt a a = false
  | [] => rfl
  | a :: as => by simp [listLt, @listLt_irrefl as]

/-- Non-strict string order used when modelling the Python sorted builtin:
a precedes or matches b exactly when b is not strictly below a. -/
def strLe (a b : String) : Prop := strLtB b a = false

instance : DecidableRel strLe := fun a b => by
  unfold strLe
  infer_instance

instance : IsTotal String strLe where
  total a b := by
    unfold strLe strLtB
    by_cases h : a.data = b.data
    · rw [h]
      simp [listLt_irrefl]
    · rcases listLt_connex h with h1 | h1
      · exact Or.inl (by simp [listLt_asymm h1])
      · exact Or.inr (by simp [listLt_asymm h1])

instance : IsTrans String strLe where
  trans a b c h1 h2 := by
    unfold strLe strLtB at h1 h2 ⊢
    by_contra hc
    have hca : listLt c.data a.data = true := by
      cases h : listLt c.data a.data
      · exact absurd h hc
      · rfl
    by_cases hab : a.data = b.data
    · rw [hab] at hca
      simp [hca] at h2
    · rcases listLt_connex hab with h3 | h3
      · have := listLt_trans hca h3
        simp [this] at h2
      · simp [h3] at h1

instance : IsAntisymm String strLe where
  antisymm a b h1 h2 := by
    unfold strLe strLtB at h1 h2
    by_contra hab
    have : a.data ≠ b.data := fun he => hab (by cases a; cases b; exact congrArg String.mk he)
    rcases listLt_connex this with h3 | h3
    · simp [h3] at h2
    · simp [h3] at h1

theorem strData_ne {a b : String} (h : a ≠ b) : a.data ≠ b.data :=
  fun he => h (by cases a; cases b; exact congrArg String.mk he)

theorem strLtB_asymm {a b : String} (h : strLtB a b = true) : strLtB b a = false :=
  listLt_asymm h

theorem strLtB_trans {a b c : String} (h1 : strLtB a b = true) (h2 : strLtB b c = true) :
    strLtB a c = true :=
  listLt_trans h1 h2

theorem strLtB_connex {a b : String} (h : a ≠ b) :
    strLtB a b = true ∨ strLtB b a = true :=
  listLt_connex (strData_ne h)

theorem strLtB_irrefl {a : String} : strLtB a a = false :=
  listLt_irrefl

/-- Boolean form of the non-strict string order. -/
def strLeB (a b : String) : Bool := !(strLtB b a)

theorem strLeB_iff {a b : String} : strLeB a b = true ↔ strLe a b := by
  simp [strLeB, strLe]

theorem strLeB_total (a b : String) : strLeB a b = true ∨ strLeB b a = true := by
  rw [strLeB_iff, strLeB_iff]
  exact IsTotal.total a b

theorem strLeB_trans {a b c : String} (h1 : strLeB a b = true) (h2 : strLeB b c = true) :
    strLeB a c = true := by
  rw [strLeB_iff] at h1 h2 ⊢
  exact Trans.trans h1 h2

theorem strLeB_antisymm {a b : String} (h1 : strLeB a b = true) (h2 : strLeB b a = true) :
    a = b := by
  rw [strLeB_iff] at h1 h2
  exact IsAntisymm.antisymm a b h1 h2

/-- Lexicographic combination of a strict comparison on the first component
with a non-strict comparison on the second; this is how Python compares
tuples. -/
def lexLeB {α β : Type} [DecidableEq α] (ltA : α → α → Bool) (leB : β → β → Bool)
    (p q : α × β) : Bool :=
  ltA p.1 q.1 || (decide (p.1 = q.1) && leB p.2 q.2)

theorem lexLeB_total {α β : Type} [DecidableEq α] (ltA : α → α → Bool)
    (leB : β → β → Bool)
    (hconn : ∀ a b : α, a ≠ b → ltA a b = true ∨ ltA b a = true)
    (hBtot : ∀ x y : β, leB x y = true ∨ leB y x = true) :
    ∀ p q : α × β, lexLeB ltA leB p q = true ∨ lexLeB ltA leB q p = true := by
  intro p q
  by_cases h1 : p.1 = q.1
  · rcases hBtot p.2 q.2 with h2 | h2
    · exact Or.inl (by simp [lexLeB, h1, h2])
    · exact Or.inr (by simp [lexLeB, h1.symm, h2])
  · rcases hconn p.1 q.1 h1 with h2 | h2
    · exact Or.inl (by simp [lexLeB, h2])
    · exact Or.inr (by simp [lexLeB, h2])

theorem lexLeB_trans {α β : Type} [DecidableEq α] (ltA : α → α → Bool)
    (leB : β → β → Bool)
    (hAtr : ∀ {a b c : α}, ltA a b = true → ltA b c = true → ltA a c = true)
    (hBtr : ∀ {x y z : β}, leB x y = true → leB y z = true → leB x z = true) :
    ∀ {p q r : α × β}, lexLeB ltA leB p q = true → lexLeB ltA leB q r = true →
      lexLeB ltA leB p r = true := by
  intro p q r h1 h2
  simp only [lexLeB, Bool.or_eq_true, Bool.and_eq_true, decide_eq_true_eq] at h1 h2 ⊢
  rcases h1 with h1 | ⟨he1, h1⟩
  · rcases h2 with h2 | ⟨he2, h2⟩
    · exact Or.inl (hAtr h1 h2)
    · exact Or.inl (he2 ▸ h1)
  · rcases h2 with h2 | ⟨he2, h2⟩
    · exact Or.inl (he1 ▸ h2)
    · exact Or.inr ⟨he1.trans he2, hBtr h1 h2⟩

theorem lexLeB_antisymm {α β : Type} [DecidableEq α] (ltA : α → α → Bool)
    (leB : β → β → Bool)
    (hAas : ∀ {a b : α}, ltA a b = true → ltA b a = false)
    (hBas : ∀ {x y : β}, leB x y = true → leB y x = true → x = y) :
    ∀ {p q : α × β}, lexLeB ltA leB p q = true → lexLeB ltA leB q p = true → p = q := by
  intro p q h1 h2
  simp only [lexLeB, Bool.or_eq_true, Bool.and_eq_true, decide_eq_true_eq] at h1 h2
  rcases h1 with h1 | ⟨he1, h1⟩
  · rcases h2 with h2 | ⟨he2, h2⟩
    · exact absurd h2 (by simp [hAas h1])
    · rw [he2] at h1
      exact absurd ((hAas h1).symm.trans h1) (by simp)
  · rcases h2 with h2 | ⟨he2, h2⟩
    · rw [he1] at h2
      exact absurd ((hAas h2).symm.trans h2) (by simp)
    · exact Prod.ext he1 (hBas h1 h2)

/-- The relation the Python sorted builtin applies to plain string lists;
used for the subdomain canonicalization in ai.py. -/
def strLeP (a b : String) : Prop := strLe a b

instance : DecidableRel strLeP := fun a b => by
  unfold strLeP
  infer_instance

instance : IsTotal String strLeP := ⟨IsTotal.total (r := strLe)⟩

instance : IsTrans String strLeP := ⟨IsTrans.trans (r := strLe)⟩

instance : IsAntisymm String strLeP := ⟨IsAntisymm.antisymm (r := strLe)⟩

/-- Tuple order used by sorted(report.get("open_ports", {}).items()) in
ai.py: Python compares the (port, service) pairs lexicographically. -/
def pairLeB (p q : String × String) : Bool := lexLeB strLtB strLeB p q

def pairLeP (p q : String × String) : Prop := pairLeB p q = true

instance : DecidableRel pairLeP := fun p q => by
  unfold pairLeP
  infer_instance

instance : IsTotal (String × String) pairLeP where
  total p q :=
    lexLeB_total strLtB strLeB (fun _ _ h => strLtB_connex h) strLeB_total p q

instance : IsTrans (String × String) pairLeP where
  trans p q r h1 h2 :=
    lexLeB_trans strLtB strLeB (fun ha hb => strLtB_trans ha hb)
      (fun ha hb => strLeB_trans ha hb) h1 h2

instance : IsAntisymm (String × String) pairLeP where
  antisymm p q h1 h2 :=
    lexLeB_antisymm strLtB strLeB (fun h => strLtB_asymm h)
      (fun ha hb => strLeB_antisymm ha hb) h1 h2

/-- Reduced projection of a vulnerability used by the cache fingerprint:
severity, title, description. -/
abbrev V3 := String × String × String

/-- The sort key lambda x: (x.severity, x.title) of ReportAICache.get_cache_key:
the description component is ignored by the comparison. -/
def vKey (v : V3) : String × String := (v.1, v.2.1)

/-- Order induced on projected vulnerabilities by the Python
sorted(..., key=lambda x: (severity, title)) call: compares only the key. -/
def keyLeB (p q : V3) : Bool := lexLeB strLtB (fun x y => strLeB x.1 y.1) p q

def keyLeP (p q : V3) : Prop := keyLeB p q = true

instance : DecidableRel keyLeP := fun p q => by
  unfold keyLeP
  infer_instance

instance : IsTotal V3 keyLeP where
  total p q := by
    show keyLeB p q = true ∨ keyLeB q p = true
    unfold keyLeB
    exact lexLeB_total strLtB (fun (x y : String × String) => strLeB x.1 y.1)
      (fun _ _ h => strLtB_connex h) (fun x y => strLeB_total x.1 y.1) p q

instance : IsTrans V3 keyLeP where
  trans p q r h1 h2 := by
    show keyLeB p r = true
    unfold keyLeB at *
    exact lexLeB_trans strLtB (fun (x y : String × String) => strLeB x.1 y.1)
      (fun ha hb => strLtB_trans ha hb) (fun ha hb => strLeB_trans ha hb) h1 h2

/-- Full lexicographic order on projected vulnerability triples, used only in
proofs about the stable sort. -/
def triLeB (p q : V3) : Bool := lexLeB strLtB pairLeB p q

def triLeP (p q : V3) : Prop := triLeB p q = true

instance : DecidableRel triLeP := fun p q => by
  unfold triLeP
  infer_instance

instance : IsTotal V3 triLeP where
  total p q :=
    lexLeB_total strLtB pairLeB (fun _ _ h => strLtB_connex h)
      (lexLeB_total strLtB strLeB (fun _ _ h => strLtB_connex h) strLeB_total) p q

instance : IsTrans V3 triLeP where
  trans p q r h1 h2 :=
    lexLeB_trans strLtB pairLeB (fun ha hb => strLtB_trans ha hb)
      (fun ha hb => lexLeB_trans strLtB strLeB (fun hc hd => strLtB_trans hc hd)
        (fun hc hd => strLeB_trans hc hd) ha hb) h1 h2

instance : IsAntisymm V3 triLeP where
  antisymm p q h1 h2 :=
    lexLeB_antisymm strLtB pairLeB (fun h => strLtB_asymm h)
      (fun ha hb => lexLeB_antisymm strLtB strLeB (fun h => strLtB_asymm h)
        (fun hc hd => strLeB_antisymm hc hd) ha hb) h1 h2

/-- Sorting a list with a total, transitive, antisymmetric relation depends
only on the multiset of elements. -/
theorem insertionSort_eq_of_perm {α : Type} {r : α → α → Prop} [DecidableRel r]
    [IsTotal α r] [IsTrans α r] [IsAntisymm α r] {l1 l2 : List α}
    (h : l1.Perm l2) :
    List.insertionSort r l1 = List.insertionSort r l2 :=
  List.eq_of_perm_of_sorted
    ((List.perm_insertionSort r l1).trans (h.trans (List.perm_insertionSort r l2).symm))
    (List.sorted_insertionSort r l1) (List.sorted_insertionSort r l2)

theorem keyLeP_and_ne_imp_triLeP {a b : V3} (h : keyLeP a b) (hne : vKey a ≠ vKey b) :
    triLeP a b := by
  unfold keyLeP keyLeB at h
  unfold triLeP triLeB
  simp only [lexLeB, pairLeB, Bool.or_eq_true, Bool.and_eq_true, decide_eq_true_eq] at h ⊢
  rcases h with h | ⟨he, h⟩
  · exact Or.inl h
  · unfold strLeB at h
    rcases hlt : strLtB a.2.1 b.2.1 with _ | _
    · have hba : strLtB b.2.1 a.2.1 = false := by
        cases hba : strLtB b.2.1 a.2.1
        · rfl
        · rw [hba] at h
          simp at h
      have : a.2.1 = b.2.1 := by
        by_contra hc
        rcases strLtB_connex hc with hx | hx
        · rw [hx] at hlt
          cases hlt
        · rw [hx] at hba
          cases hba
      exact absurd (by unfold vKey; rw [he, this]) hne
    · exact Or.inr ⟨he, Or.inl rfl⟩

/-- The stable key sort of get_cache_key depends only on the multiset of
projected triples, provided no two of them share a (severity, title) key. -/
theorem insertionSort_key_eq_of_perm {l1 l2 : List V3} (h : l1.Perm l2)
    (hd : l1.Pairwise (fun a b => vKey a ≠ vKey b)) :
    List.insertionSort keyLeP l1 = List.insertionSort keyLeP l2 := by
  have hsym : ∀ {x y : V3}, vKey x ≠ vKey y → vKey y ≠ vKey x := fun hxy => (Ne.symm hxy)
  have hd2 : l2.Pairwise (fun a b => vKey a ≠ vKey b) :=
    (h.pairwise_iff hsym).mp hd
  have hp1 : (List.insertionSort keyLeP l1).Pairwise (fun a b => vKey a ≠ vKey b) :=
    ((List.perm_insertionSort keyLeP l1).pairwise_iff hsym).mpr hd
  have hp2 : (List.insertionSort keyLeP l2).Pairwise (fun a b => vKey a ≠ vKey b) :=
    ((List.perm_insertionSort keyLeP l2).pairwise_iff hsym).mpr hd2
  have hs1 : (List.insertionSort keyLeP l1).Sorted triLeP :=
    ((List.sorted_insertionSort keyLeP l1).and hp1).imp
      (fun hab => keyLeP_and_ne_imp_triLeP hab.1 hab.2)
  have hs2 : (List.insertionSort keyLeP l2).Sorted triLeP :=
    ((List.sorted_insertionSort keyLeP l2).and hp2).imp
      (fun hab => keyLeP_and_ne_imp_triLeP hab.1 hab.2)
  exact List.eq_of_perm_of_sorted
    ((List.perm_insertionSort keyLeP l1).trans (h.trans (List.perm_insertionSort keyLeP l2).symm))
    hs1 hs2

/-- Vulnerability record: element of the vulnerabilities list of a report.
Fields are optional because the loader only validates that each vulnerability
is a mapping; a missing field is read with a per-call default in the source
(none models an absent key). -/
structure Vulnerability where
  severity : Option String
  title : Option String
  description : Option String
  affected_service : Option String
  cve_id : Option String
deriving DecidableEq

/-- A report that passed loader validation: all five required fields are
present with the container types of the schema, and ai_summary is either
absent or a string (loader.py validate_report_schema).  open_ports models the
Python dict as its insertion-ordered key/value list. -/
structure Report where
  target : String
  scan_date : String
  subdomains : List String
  open_ports : List (String × String)
  vulnerabilities : List Vulnerability
  ai_summary : Option String
deriving DecidableEq

/-- Projection applied by ReportAICache.get_cache_key to every vulnerability:
only severity, title and description are kept, each read with an empty-string
default. -/
def vulnProj (v : Vulnerability) : V3 :=
  (v.severity.getD "", v.title.getD "", v.description.getD "")

/-- The canonical content record that ReportAICache.get_cache_key builds,
serializes as JSON with sorted keys and hashes with MD5.  The serialization
of this record is injective, so two reports obtain the same MD5 cache key
exactly when they produce the same CacheData value (up to MD5 collisions);
the fingerprint is therefore modelled as the CacheData value itself. -/
structure CacheData where
  target : String
  scan_date : String
  subdomains : List String
  open_ports : List (String × String)
  vulnerabilities : List V3
deriving DecidableEq

/-- ReportAICache.get_cache_key (ai.py lines 405-432): sorted subdomains,
port pairs sorted as Python tuples, vulnerability projections stably sorted
by the (severity, title) key. -/
def get_cache_key (r : Report) : CacheData :=
  { target := r.target
    scan_date := r.scan_date
    subdomains := List.insertionSort strLeP r.subdomains
    open_ports := List.insertionSort pairLeP r.open_ports
    vulnerabilities := List.insertionSort keyLeP (r.vulnerabilities.map vulnProj) }

/-- Association-list lookup with Python dict semantics (keys unique). -/
def alookup {κ ν : Type} [DecidableEq κ] : List (κ × ν) → κ → Option ν
  | [], _ => none
  | (k0, v) :: rest, k => if k0 = k then some v else alookup rest k

/-- Association-list update: replace the binding in place or append it,
modelling assignment to a Python dict key. -/
def aset {κ ν : Type} [DecidableEq κ] : List (κ × ν) → κ → ν → List (κ × ν)
  | [], k, v => [(k, v)]
  | (k0, v0) :: rest, k, v =>
    if k0 = k then (k, v) :: rest else (k0, v0) :: aset rest k v

/-- Association-list deletion, modelling del on a Python dict key. -/
def aremove {κ ν : Type} [DecidableEq κ] (m : List (κ × ν)) (k : κ) : List (κ × ν) :=
  m.filter (fun p => decide (p.1 ≠ k))

theorem alookup_aset_self {κ ν : Type} [DecidableEq κ] (m : List (κ × ν)) (k : κ) (v : ν) :
    alookup (aset m k v) k = some v := by
  induction m with
  | nil => simp [aset, alookup]
  | cons p rest ih =>
    by_cases h : p.1 = k
    · simp [aset, alookup, h]
    · simp [aset, alookup, h, ih]

theorem alookup_aremove_self {κ ν : Type} [DecidableEq κ] (m : List (κ × ν)) (k : κ) :
    alookup (aremove m k) k = none := by
  induction m with
  | nil => rfl
  | cons p rest ih =>
    by_cases h : p.1 = k
    · simpa [aremove, List.filter, h] using ih
    · simpa [aremove, List.filter, h, alookup] using ih

/-- Entry stored by the persistent report cache: summary text, generation
timestamp (seconds, modelled as a natural number) and originating target. -/
structure CacheEntry where
  summary : String
  timestamp : Nat
  target : String
deriving DecidableEq

/-- Python truthiness of an optional string: present and non-empty. -/
def truthyOpt : Option String → Bool
  | some s => s != ""
  | none => false

/-- ReportAICache.get_cached_summary (ai.py lines 434-453): a truthy
ai_summary field on the report itself wins; otherwise the memory cache is
consulted by fingerprint.  Entries written by this module are always
records carrying a summary field. -/
def get_cached_summary (m : List (CacheData × CacheEntry)) (r : Report) : Option String :=
  if truthyOpt r.ai_summary then r.ai_summary
  else
    match alookup m (get_cache_key r) with
    | some e => some e.summary
    | none => none

/-- ReportAICache.cache_summary (ai.py lines 455-471): store the entry under
the report fingerprint, then persist; persistence keeps the same mapping, so
the state is the updated mapping. -/
def cache_summary (m : List (CacheData × CacheEntry)) (r : Report) (summary : String)
    (now : Nat) : List (CacheData × CacheEntry) :=
  aset m (get_cache_key r) ⟨summary, now, r.target⟩

/-- ReportAICache.invalidate_cache (ai.py lines 473-488): remove the entry
for the current fingerprint if present; returns whether anything was removed
together with the new state. -/
def invalidate_cache (m : List (CacheData × CacheEntry)) (r : Report) :
    Bool × List (CacheData × CacheEntry) :=
  if (alookup m (get_cache_key r)).isSome then (true, aremove m (get_cache_key r))
  else (false, m)

/-- Content record hashed by AIAnalyzer._generate_cache_key for the in-memory
transport cache: unlike the persistent cache it keeps the raw vulnerability
list, unprojected and unsorted. -/
structure MemCacheData where
  target : String
  scan_date : String
  subdomains : List String
  open_ports : List (String × String)
  vulnerabilities : List Vulnerability
deriving DecidableEq

/-- AIAnalyzer._generate_cache_key (ai.py lines 104-124). -/
def generate_cache_key (r : Report) : MemCacheData :=
  { target := r.target
    scan_date := r.scan_date
    subdomains := List.insertionSort strLeP r.subdomains
    open_ports := List.insertionSort pairLeP r.open_ports
    vulnerabilities := r.vulnerabilities }

/-- Mutable state of an AIAnalyzer: the configured key and the in-memory
summary cache. -/
structure AnalyzerState where
  api_key : Option String
  cache : List (MemCacheData × String)
deriving DecidableEq

/-- AIAnalyzer.is_enabled (ai.py lines 60-67): a key is configured and is not
pure whitespace. -/
def is_enabled (st : AnalyzerState) : Bool :=
  match st.api_key with
  | none => false
  | some k => pyStrip k != ""

/-- One HTTP response of the completion endpoint, as observed by the client:
status code, the content strings of the choices array of a parsed 200 body,
and the raw body text reported for unexpected statuses. -/
structure Resp where
  status : Nat
  choices : List String
  text : String
deriving DecidableEq

/-- The retryable statuses configured on the session
(Retry(status_forcelist=[429, 500, 502, 503, 504]), ai.py lines 42-46). -/
def status_forcelist : List Nat := [429, 500, 502, 503, 504]

/-- What the transport layer hands back to generate_summary. -/
inductive TransportResult where
  | delivered (r : Resp)
  | exhausted
  | connectionFailed
deriving DecidableEq

/-- The urllib3 retry loop mounted on the session with total=3: given the
response each successive attempt would receive (an exhausted script is a
connection failure), deliver the first response whose status is not in the
forcelist, or raise after the bounded number of retries.  The second
component counts the HTTP attempts consumed. -/
def retrySend : Nat → List Resp → TransportResult × Nat
  | fuel, [] => (.connectionFailed, fuel + 1)
  | fuel, r :: rest =>
    if r.status ∈ status_forcelist then
      match fuel with
      | 0 => (.exhausted, 1)
      | f + 1 =>
        let p := retrySend f rest
        (p.1, p.2 + 1)
    else (.delivered r, 1)

/-- Result of one AIAnalyzer.generate_summary call: the returned optional
summary, the error message printed on the failure path (none when nothing is
printed), the analyzer state after the call, and the number of HTTP attempts
consumed. -/
structure GenOutcome where
  summary : Option String
  errorMsg : Option String
  state : AnalyzerState
  attempts : Nat
deriving DecidableEq

/-- AIAnalyzer.generate_summary (ai.py lines 176-276), with the transport
scripted: disabled state and in-memory cache hits return before any network
use; a delivered 200 takes the first choice content, strips it and caches it
unconditionally; other delivered statuses and transport exceptions print one
distinct message and return no summary.  The messages of the two exception
branches are abbreviations of the printed f-strings. -/
def generate_summary (st : AnalyzerState) (r : Report) (script : List Resp) : GenOutcome :=
  if is_enabled st = false then ⟨none, none, st, 0⟩
  else
    match alookup st.cache (generate_cache_key r) with
    | some s => ⟨some s, none, st, 0⟩
    | none =>
      match retrySend 3 script with
      | (.delivered resp, n) =>
        if resp.status = 200 then
          match resp.choices with
          | [] => ⟨none, some "AI API Warning: Unexpected response format", st, n⟩
          | c :: _ =>
            ⟨some (pyStrip c), none,
              { st with cache := aset st.cache (generate_cache_key r) (pyStrip c) }, n⟩
        else if resp.status = 401 then
          ⟨none, some "AI API Error: Invalid API key", st, n⟩
        else if resp.status = 429 then
          ⟨none, some "AI API Error: Rate limit exceeded. Please try again later.", st, n⟩
        else if resp.status = 402 then
          ⟨none, some "AI API Error: Insufficient credits. Please check your OpenRouter account.", st, n⟩
        else
          ⟨none, some ("AI API Error: HTTP " ++ toString resp.status ++ " - " ++ resp.text), st, n⟩
      | (.exhausted, n) =>
        ⟨none, some "AI API Error: Request failed - retries exhausted", st, n⟩
      | (.connectionFailed, n) =>
        ⟨none, some "AI API Error: Connection failed. Please check your internet connection.", st, n⟩

/-- Combined state of an EnhancedAIAnalyzer: the inherited analyzer state and
the persistent report cache. -/
structure EnhancedState where
  base : AnalyzerState
  report_cache : List (CacheData × CacheEntry)
deriving DecidableEq

/-- Result of one EnhancedAIAnalyzer.generate_summary_for_report call: the
returned optional summary, the state after the call, and the report as left
by the call (annotated on success). -/
structure EnhOutcome where
  summary : Option String
  state : EnhancedState
  report : Report
deriving DecidableEq

/-- EnhancedAIAnalyzer.generate_summary_for_report (ai.py lines 535-566):
consult the persistent cache unless forced, otherwise generate; only a truthy
generated summary is written through to the persistent cache and into the
report. -/
def generate_summary_for_report (st : EnhancedState) (r : Report) (force_refresh : Bool)
    (script : List Resp) (now : Nat) : EnhOutcome :=
  if is_enabled st.base = false then ⟨none, st, r⟩
  else
    let cached := if force_refresh then none else get_cached_summary st.report_cache r
    if truthyOpt cached then ⟨cached, st, r⟩
    else
      let g := generate_summary st.base r script
      match g.summary with
      | some s =>
        if s ≠ "" then
          ⟨some s, ⟨g.state, cache_summary st.report_cache r s now⟩,
            { r with ai_summary := some s }⟩
        else ⟨some s, ⟨g.state, st.report_cache⟩, r⟩
      | none => ⟨none, ⟨g.state, st.report_cache⟩, r⟩

/-- Comma-space joining used by the prompt f-string. -/
def joinComma (xs : List String) : String := String.intercalate ", " xs

/-- One port entry as the prompt renders it. -/
def portItem (p : String × String) : String := p.1 ++ "(" ++ p.2 ++ ")"

/-- One vulnerability line of the prompt, with the per-call defaults of
format_prompt. -/
def vulnLine (v : Vulnerability) : String :=
  "- " ++ pyUpper (v.severity.getD "unknown") ++ ": "
    ++ v.title.getD "Unknown vulnerability" ++ "\n"

def promptHeader : String :=
  "Analyze this cybersecurity reconnaissance report and provide a threat assessment:\n\n"

def promptScanInfo (r : Report) : String :=
  "TARGET: " ++ r.target ++ "\nSCAN DATE: " ++ r.scan_date

def promptSubdomains (r : Report) : String :=
  "\n\nDISCOVERED SUBDOMAINS (" ++ toString r.subdomains.length ++ "):\n"
    ++ joinComma (r.subdomains.take 10)
    ++ (if r.subdomains.length > 10 then "..." else "")

def promptPorts (r : Report) : String :=
  "\n\nOPEN PORTS (" ++ toString r.open_ports.length ++ "):\n"
    ++ joinComma ((r.open_ports.take 10).map portItem)
    ++ (if r.open_ports.length > 10 then "..." else "")

def promptVulnHeader (r : Report) : String :=
  "\n\nVULNERABILITIES FOUND (" ++ toString r.vulnerabilities.length ++ "):\n"

def promptVulnLines (r : Report) : String :=
  String.join ((r.vulnerabilities.take 5).map vulnLine)

def promptMore (r : Report) : String :=
  if r.vulnerabilities.length > 5 then
    "... and " ++ toString (r.vulnerabilities.length - 5) ++ " more vulnerabilities\n"
  else ""

def promptInstructions : String :=
  "\nPlease provide:\n1. RISK LEVEL (Low/Medium/High/Critical) with brief justification\n2. KEY CONCERNS: Top 3 security issues to prioritize\n3. ATTACK VECTORS: Potential ways an attacker could exploit these findings\n4. RECOMMENDATIONS: Specific actions to improve security posture\n\nKeep the response concise but actionable for a security analyst."

/-- Everything the prompt derives from the collection fields of the report. -/
def promptBody (r : Report) : String :=
  promptSubdomains r ++ promptPorts r ++ promptVulnHeader r
    ++ promptVulnLines r ++ promptMore r

/-- AIAnalyzer.format_prompt (ai.py lines 126-174), the concatenation of the
f-string sections of the source in order. -/
def format_prompt (r : Report) : String :=
  promptHeader ++ promptScanInfo r ++ promptBody r ++ promptInstructions

/-- Nearest integer with ties to even: the correct-rounding kernel.  CPython
applies correctly rounded conversions with this tie rule both when rounding
an exact quotient to a binary64 and when rounding the exact value of a
binary64 to one decimal digit, so this function only ever enters the model
as part of those two conversions, never directly as the Python round
builtin. -/
def roundHalfEven (q : ℚ) : ℤ :=
  if q - ⌊q⌋ < 1/2 then ⌊q⌋
  else if 1/2 < q - ⌊q⌋ then ⌊q⌋ + 1
  else if ⌊q⌋ % 2 = 0 then ⌊q⌋ else ⌊q⌋ + 1

/-- Round a positive rational to 53 significant binary digits, nearest with
ties to even: binary64 rounding of an exact positive value, with unbounded
exponent range (every value reachable in a KPI average is a normal binary64,
where this coincides with IEEE 754 double rounding). -/
def roundPos53 (q : ℚ) : ℚ :=
  (roundHalfEven (q * (2:ℚ) ^ ((52:ℤ) - Int.log 2 q)) : ℚ) * (2:ℚ) ^ (Int.log 2 q - 52)

/-- The binary64 value nearest to an exact rational, ties to even: models the
float produced by Python true division of two integers, which CPython rounds
correctly. -/
def toFloat (q : ℚ) : ℚ :=
  if q = 0 then 0
  else if 0 < q then roundPos53 q
  else -roundPos53 (-q)

/-- round(x, 1) of the Python source applied to a float x (represented by
its exact rational value): CPython rounds the exact value of the double to
one decimal digit, correctly with ties to even, and returns the binary64
nearest to that decimal. -/
def round1 (x : ℚ) : ℚ := toFloat ((roundHalfEven (x * 10) : ℚ) / 10)

/-- The KPI record returned by ReportAnalytics.calculate_kpis. -/
structure KPIs where
  total_reports : Nat
  total_subdomains : Nat
  avg_open_ports : ℚ
  total_vulnerabilities : Nat
deriving DecidableEq

/-- Insertion into a Python set modelled as a duplicate-free list. -/
def setInsert (s : List String) (x : String) : List String :=
  if x ∈ s then s else s ++ [x]

/-- set.update with an iterable of strings. -/
def setUnionList (s : List String) (xs : List String) : List String :=
  xs.foldl setInsert s

/-- The accumulator loop of calculate_kpis: the running subdomain set, the
open-port count and the vulnerability count.  Validated reports always pass
the isinstance guards of the source, so every report contributes. -/
def kpiFold (reports : List Report) : List String × Nat × Nat :=
  reports.foldl
    (fun acc r =>
      (setUnionList acc.1 r.subdomains,
       acc.2.1 + r.open_ports.length,
       acc.2.2 + r.vulnerabilities.length))
    ([], 0, 0)

/-- ReportAnalytics.calculate_kpis (analytics.py lines 26-94) on validated
reports. -/
def calculate_kpis (reports : List Report) : KPIs :=
  if reports = [] then ⟨0, 0, 0, 0⟩
  else
    { total_reports := reports.length
      total_subdomains := (kpiFold reports).1.length
      avg_open_ports := round1 (toFloat (((kpiFold reports).2.1 : ℚ) / (reports.length : ℚ)))
      total_vulnerabilities := (kpiFold reports).2.2 }

/-- A parsed datetime value as strptime produces it. -/
structure DateTime where
  year : Nat
  month : Nat
  day : Nat
  hour : Nat
  minute : Nat
  second : Nat
deriving DecidableEq

def digitVal (c : Char) : Nat := c.toNat - 48

/-- The strptime pattern for %Y: exactly four digits. -/
def pYear : List Char → Option (Nat × List Char)
  | a :: b :: c :: d :: rest =>
    if a.isDigit && b.isDigit && c.isDigit && d.isDigit then
      some (1000 * digitVal a + 100 * digitVal b + 10 * digitVal c + digitVal d, rest)
    else none
  | _ => none

/-- The strptime pattern for %m: 1[0-2], 0[1-9] or [1-9], longest
alternative first. -/
def pMonth : List Char → Option (Nat × List Char)
  | [] => none
  | c :: rest =>
    if c = '1' then
      match rest with
      | c2 :: rest2 =>
        if '0' ≤ c2 && c2 ≤ '2' then some (10 + digitVal c2, rest2) else some (1, rest)
      | [] => some (1, [])
    else if c = '0' then
      match rest with
      | c2 :: rest2 => if '1' ≤ c2 && c2 ≤ '9' then some (digitVal c2, rest2) else none
      | [] => none
    else if '2' ≤ c && c ≤ '9' then some (digitVal c, rest)
    else none

/-- The strptime pattern for %d: 3[01], [12] followed by a digit, 0[1-9] or
[1-9]. -/
def pDay : List Char → Option (Nat × List Char)
  | [] => none
  | c :: rest =>
    if c = '3' then
      match rest with
      | c2 :: rest2 =>
        if c2 = '0' || c2 = '1' then some (30 + digitVal c2, rest2) else some (3, rest)
      | [] => some (3, [])
    else if c = '1' || c = '2' then
      match rest with
      | c2 :: rest2 =>
        if c2.isDigit then some (10 * digitVal c + digitVal c2, rest2)
        else some (digitVal c, rest)
      | [] => some (digitVal c, [])
    else if c = '0' then
      match rest with
      | c2 :: rest2 => if '1' ≤ c2 && c2 ≤ '9' then some (digitVal c2, rest2) else none
      | [] => none
    else if '4' ≤ c && c ≤ '9' then some (digitVal c, rest)
    else none

/-- The strptime pattern for %H: 2[0-3], [01] followed by a digit, or one
digit. -/
def pHour : List Char → Option (Nat × List Char)
  | [] => none
  | c :: rest =>
    if c = '2' then
      match rest with
      | c2 :: rest2 =>
        if '0' ≤ c2 && c2 ≤ '3' then some (20 + digitVal c2, rest2) else some (2, rest)
      | [] => some (2, [])
    else if c = '0' || c = '1' then
      match rest with
      | c2 :: rest2 =>
        if c2.isDigit then some (10 * digitVal c + digitVal c2, rest2)
        else some (digitVal c, rest)
      | [] => some (digitVal c, [])
    else if c.isDigit then some (digitVal c, rest)
    else none

/-- The strptime pattern for %M and %S: [0-5] followed by a digit, or one
digit. -/
def pMinSec : List Char → Option (Nat × List Char)
  | [] => none
  | c :: rest =>
    if '0' ≤ c && c ≤ '5' then
      match rest with
      | c2 :: rest2 =>
        if c2.isDigit then some (10 * digitVal c + digitVal c2, rest2)
        else some (digitVal c, rest)
      | [] => some (digitVal c, [])
    else if c.isDigit then some (digitVal c, rest)
    else none

def pLit (ch : Char) : List Char → Option (List Char)
  | [] => none
  | c :: rest => if c = ch then some rest else none

def isLeap (y : Nat) : Bool := y % 4 = 0 && (y % 100 ≠ 0 || y % 400 = 0)

def daysInMonth (y m : Nat) : Nat :=
  if m = 2 then (if isLeap y then 29 else 28)
  else if m = 4 || m = 6 || m = 9 || m = 11 then 30
  else 31

/-- The validation the datetime constructor applies after the regex match:
the year is at least MINYEAR and the day fits the month. -/
def mkDateTime (y m d h mi s : Nat) : Option DateTime :=
  if 1 ≤ y && 1 ≤ d && d ≤ daysInMonth y m then some ⟨y, m, d, h, mi, s⟩ else none

def parseYMD (sep : Char) (cs : List Char) : Option (Nat × Nat × Nat × List Char) := do
  let (y, r1) ← pYear cs
  let r2 ← pLit sep r1
  let (m, r3) ← pMonth r2
  let r4 ← pLit sep r3
  let (d, r5) ← pDay r4
  pure (y, m, d, r5)

def parseDMY (sep : Char) (cs : List Char) : Option (Nat × Nat × Nat × List Char) := do
  let (d, r1) ← pDay cs
  let r2 ← pLit sep r1
  let (m, r3) ← pMonth r2
  let r4 ← pLit sep r3
  let (y, r5) ← pYear r4
  pure (y, m, d, r5)

def parseTimeTail (cs : List Char) : Option (Nat × Nat × Nat × List Char) := do
  let r1 ← pLit ' ' cs
  let (h, r2) ← pHour r1
  let r3 ← pLit ':' r2
  let (mi, r4) ← pMinSec r3
  let r5 ← pLit ':' r4
  let (s, r6) ← pMinSec r5
  pure (h, mi, s, r6)

/-- One strptime call: committed regex match over the whole string followed
by datetime construction. -/
def tryFormat (dayFirst : Bool) (sep : Char) (withTime : Bool) (cs : List Char) :
    Option DateTime := do
  let (y, m, d, rest) ← if dayFirst then parseDMY sep cs else parseYMD sep cs
  let (h, mi, s, rest2) ← if withTime then parseTimeTail rest else pure (0, 0, 0, rest)
  if rest2 = [] then mkDateTime y m d h mi s else none

/-- ReportAnalytics._parse_date (analytics.py lines 338-364): the six
accepted formats tried in order on the stripped string, first success
wins. -/
def parse_date (s : String) : Option DateTime :=
  let cs := (pyStrip s).data
  tryFormat false '-' false cs <|> tryFormat false '/' false cs
    <|> tryFormat true '-' false cs <|> tryFormat true '/' false cs
    <|> tryFormat false '-' true cs <|> tryFormat false '/' true cs

/-- Comparison of the date parts only, as the .date() comparison of
_filter_by_date_range. -/
def dateTripleLe (a b : DateTime) : Bool :=
  a.year < b.year
    || (a.year = b.year
        && (a.month < b.month || (a.month = b.month && a.day ≤ b.day)))

/-- ReportAnalytics._filter_by_date_range (analytics.py lines 366-399). -/
def filter_by_date_range (reports : List Report) (sd ed : DateTime) : List Report :=
  reports.filter (fun r =>
    match parse_date r.scan_date with
    | some dt => dateTripleLe sd dt && dateTripleLe dt ed
    | none => false)

def vulnMatches (kw : String) (v : Vulnerability) : Bool :=
  containsSub kw (pyLower (v.title.getD ""))
    || containsSub kw (pyLower (v.description.getD ""))
    || containsSub kw (pyLower (v.affected_service.getD ""))

def portMatches (kw : String) (p : String × String) : Bool :=
  containsSub kw (pyLower p.2) || containsSub kw (pyLower p.1)

def reportMatches (kw : String) (r : Report) : Bool :=
  containsSub kw (pyLower r.target)
    || r.subdomains.any (fun s => containsSub kw (pyLower s))
    || r.vulnerabilities.any (vulnMatches kw)
    || r.open_ports.any (portMatches kw)

/-- ReportAnalytics._filter_by_keyword (analytics.py lines 401-479):
case-insensitive substring match against target, subdomains, vulnerability
title, description and affected service, and port ids and service names. -/
def filter_by_keyword (reports : List Report) (keyword : String) : List Report :=
  if keyword = "" then reports
  else reports.filter (reportMatches (pyLower keyword))

/-- The filter criteria dictionary of filter_reports.  A date range whose
bounds are absent is modelled as none, matching the start-and-end truthiness
guard of the source. -/
structure Filters where
  selected_targets : List String
  date_range : Option (DateTime × DateTime)
  keyword_search : String
  show_ai_summaries : Option Bool

/-- The truthy ai_summary test of the show_ai_summaries branch. -/
def hasTruthySummary (r : Report) : Bool :=
  match r.ai_summary with
  | some s => pyStrip s != ""
  | none => false

/-- ReportAnalytics.filter_reports (analytics.py lines 186-254): the four
sub-filters applied in sequence, each guarded by the truthiness of its
criterion. -/
def filter_reports (reports : List Report) (filters : Filters) : List Report :=
  if reports = [] then []
  else
    let fr1 :=
      if filters.selected_targets ≠ [] then
        reports.filter (fun r => r.target ∈ filters.selected_targets)
      else reports
    let fr2 :=
      match filters.date_range with
      | some (sd, ed) => filter_by_date_range fr1 sd ed
      | none => fr1
    let kw := pyStrip filters.keyword_search
    let fr3 := if kw ≠ "" then filter_by_keyword fr2 kw else fr2
    match filters.show_ai_summaries with
    | some b =>
      if b then fr3.filter hasTruthySummary
      else fr3.filter (fun r => !hasTruthySummary r)
    | none => fr3

/-- JSON values as json.load produces them (numbers reduced to integers;
the schema only distinguishes number from string and container shapes). -/
inductive Json where
  | null
  | bool (b : Bool)
  | num (n : Int)
  | str (s : String)
  | arr (elems : List Json)
  | obj (fields : List (String × Json))

/-- Dictionary lookup on a parsed JSON object; json.load keeps the last
binding of a duplicated key. -/
def jLookup (fields : List (String × Json)) (k : String) : Option Json :=
  match fields with
  | [] => none
  | (k0, v) :: rest =>
    match jLookup rest k with
    | some v2 => some v2
    | none => if k0 = k then some v else none

def validStrField (j : Option Json) : Bool :=
  match j with
  | some (.str s) => pyStrip s != ""
  | _ => false

def allStr (xs : List Json) : Bool :=
  xs.all (fun j => match j with | .str _ => true | _ => false)

def allStrVals (ps : List (String × Json)) : Bool :=
  ps.all (fun p => match p.2 with | .str _ => true | _ => false)

def allObj (xs : List Json) : Bool :=
  xs.all (fun j => match j with | .obj _ => true | _ => false)

/-- ReportLoader.validate_report_schema (loader.py lines 116-197): the five
required fields are present with their container types, target and scan_date
are non-blank strings, subdomains is a list of strings, open_ports maps
strings to strings, vulnerabilities is a list of mappings, and ai_summary if
present is a string or null. -/
def validate_report_schema (j : Json) : Bool :=
  match j with
  | .obj fields =>
    (jLookup fields "target").isSome
      && (jLookup fields "scan_date").isSome
      && (jLookup fields "subdomains").isSome
      && (jLookup fields "open_ports").isSome
      && (jLookup fields "vulnerabilities").isSome
      && validStrField (jLookup fields "target")
      && validStrField (jLookup fields "scan_date")
      && (match jLookup fields "subdomains" with
          | some (.arr xs) => allStr xs
          | _ => false)
      && (match jLookup fields "open_ports" with
          | some (.obj ps) => allStrVals ps
          | _ => false)
      && (match jLookup fields "vulnerabilities" with
          | some (.arr vs) => allObj vs
          | _ => false)
      && (match jLookup fields "ai_summary" with
          | none => true
          | some .null => true
          | some (.str _) => true
          | some _ => false)
  | _ => false

/-- ReportLoader.get_report_files filename test: lowercased name ends with
.json. -/
def isJsonFile (name : String) : Bool := pyEndsWith (pyLower name) ".json"

/-- The per-file loop of ReportLoader.load_reports (loader.py lines 52-62).
A directory entry carries the filename and the result of json parsing (none
models a JSON decode or read failure).  A file whose parse result is missing
or fails validation contributes one warning naming the file path; a valid
file contributes its report. -/
def loadLoop (dirPath : String) : List (String × Option Json) → List Json × List String
  | [] => ([], [])
  | (name, parsed) :: rest =>
    let acc := loadLoop dirPath rest
    match parsed with
    | some j =>
      if validate_report_schema j then (j :: acc.1, acc.2)
      else (acc.1, ("Invalid report schema in file: " ++ dirPath ++ "/" ++ name) :: acc.2)
    | none => (acc.1, ("Invalid report schema in file: " ++ dirPath ++ "/" ++ name) :: acc.2)

/-- ReportLoader.load_reports (loader.py lines 27-65).  The directory is a
named list of files with their parse results; a missing directory yields no
reports.  The first component is the returned report list, the second the
per-file warning diagnostics the loader emits for rejected files. -/
def load_reports (dirExists : Bool) (dirPath : String)
    (files : List (String × Option Json)) : List Json × List String :=
  if dirExists = false then ([], [])
  else loadLoop dirPath (files.filter (fun f => isJsonFile f.1))

theorem strEmpty_append (s : String) : "" ++ s = s := by
  cases s
  rfl

theorem strAppend_empty (s : String) : s ++ "" = s := by
  cases s with
  | mk l => exact congrArg String.mk (List.append_nil l)

theorem substr_self (n : String) : SubStr n n :=
  ⟨"", "", by rw [strEmpty_append, strAppend_empty]⟩

theorem substr_left {n a : String} (h : SubStr n a) (b : String) : SubStr n (a ++ b) := by
  rcases h with ⟨p, q, hp⟩
  exact ⟨p, q ++ b, by rw [hp, strAppend_assoc (p ++ n) q b]⟩

theorem substr_right {n b : String} (h : SubStr n b) (a : String) : SubStr n (a ++ b) := by
  rcases h with ⟨p, q, hp⟩
  refine ⟨a ++ p, q, ?_⟩
  rw [hp]
  simp only [strAppend_assoc]

theorem substr_suffix (n a : String) : SubStr n (a ++ n) :=
  substr_right (substr_self n) a

/-- The loader loop is the filter of the valid parsed files paired with one
warning for every rejected file. -/
theorem loadLoop_characterization (dirPath : String) (l : List (String × Option Json)) :
    loadLoop dirPath l =
      (l.filterMap (fun f =>
        match f.2 with
        | some j => if validate_report_schema j then some j else none
        | none => none),
       (l.filter (fun f =>
        match f.2 with
        | some j => !validate_report_schema j
        | none => true)).map
        (fun f => "Invalid report schema in file: " ++ dirPath ++ "/" ++ f.1)) := by
  induction l with
  | nil => rfl
  | cons f rest ih =>
    obtain ⟨name, parsed⟩ := f
    cases parsed with
    | none => simp [loadLoop, ih, List.filterMap_cons, List.filter_cons]
    | some j =>
      by_cases hv : validate_report_schema j
      · simp [loadLoop, ih, List.filterMap_cons, List.filter_cons, hv]
      · simp [loadLoop, ih, List.filterMap_cons, List.filter_cons, hv]

/-- C1: for every existing directory, the load operation returns the list of
validated reports parsed from exactly the files whose lowercased name ends in
.json (non-recursive: the directory listing is flat), together with one
diagnostic per file that failed JSON parsing or schema validation, carrying
that file's path; rejected files are skipped and never remove a valid file
from the result.  The diagnostics model the per-file warning channel of
load_reports, which is where the source records rejections. -/
theorem claim_C1 (dirPath : String) (files : List (String × Option Json)) :
    load_reports true dirPath files =
      ((files.filter (fun f => isJsonFile f.1)).filterMap (fun f =>
        match f.2 with
        | some j => if validate_report_schema j then some j else none
        | none => none),
       ((files.filter (fun f => isJsonFile f.1)).filter (fun f =>
        match f.2 with
        | some j => !validate_report_schema j
        | none => true)).map
        (fun f => "Invalid report schema in file: " ++ dirPath ++ "/" ++ f.1)) := by
  unfold load_reports
  simp only [Bool.true_eq_false, if_false]
  exact loadLoop_characterization dirPath (files.filter (fun f => isJsonFile f.1))

/-- C2 (amended): for a report whose ai_summary field is absent or empty, a
cache put immediately followed by a get for the same report returns exactly
the summary written, and an invalidate followed by a get misses.  (The
original claim fails for reports carrying a truthy ai_summary field, which
shadows the stored entry; see the counterexample.) -/
theorem claim_C2 (m : List (CacheData × CacheEntry)) (r : Report) (s : String) (now : Nat)
    (h : truthyOpt r.ai_summary = false) :
    get_cached_summary (cache_summary m r s now) r = some s ∧
    get_cached_summary (invalidate_cache m r).2 r = none := by
  constructor
  · unfold get_cached_summary cache_summary
    simp [h, alookup_aset_self]
  · unfold get_cached_summary invalidate_cache
    by_cases hk : (alookup m (get_cache_key r)).isSome
    · simp [h, hk, alookup_aremove_self]
    · simp only [hk, if_false, h, Bool.false_eq_true]
      cases halk : alookup m (get_cache_key r) with
      | none => simp [halk]
      | some e =>
        rw [halk] at hk
        simp at hk

def reportPlain : Report :=
  { target := "example.com"
    scan_date := "2025-01-15"
    subdomains := ["www.example.com"]
    open_ports := [("80", "http")]
    vulnerabilities := []
    ai_summary := none }

/-- Witness for C2 at a concrete report without an ai_summary field. -/
theorem claim_C2_witness :
    get_cached_summary (cache_summary [] reportPlain "Summary text" 7) reportPlain
        = some "Summary text" ∧
    get_cached_summary (invalidate_cache [] reportPlain).2 reportPlain = none :=
  claim_C2 [] reportPlain "Summary text" 7 (by decide)

def reportWithOld : Report :=
  { target := "example.com"
    scan_date := "2025-01-15"
    subdomains := []
    open_ports := []
    vulnerabilities := []
    ai_summary := some "old summary" }

/-- Counterexample to C2 as stated: for a report whose ai_summary field is a
non-empty string, put followed by get returns the pre-existing field value,
not the summary just written, and invalidate followed by get does not miss. -/
theorem claim_C2_counterexample :
    get_cached_summary (cache_summary [] reportWithOld "new summary" 0) reportWithOld
        ≠ some "new summary" ∧
    get_cached_summary (cache_summary [] reportWithOld "new summary" 0) reportWithOld
        = some "old summary" ∧
    get_cached_summary (invalidate_cache [] reportWithOld).2 reportWithOld ≠ none := by
  refine ⟨by decide, by decide, by decide⟩

/-- C10: for every report whose ai_summary field is a non-empty string, the
persistent cache get returns that field value and never consults the stored
entries, so the result is the same for every cache state, in particular after
any put or invalidate. -/
theorem claim_C10 (m : List (CacheData × CacheEntry)) (r : Report)
    (h : truthyOpt r.ai_summary = true) :
    get_cached_summary m r = r.ai_summary ∧
    ∀ m2 : List (CacheData × CacheEntry), get_cached_summary m r = get_cached_summary m2 r := by
  constructor
  · unfold get_cached_summary
    simp [h]
  · intro m2
    unfold get_cached_summary
    simp [h]

/-- Witness for C10 at a concrete report carrying an ai_summary. -/
theorem claim_C10_witness :
    get_cached_summary [] reportWithOld = reportWithOld.ai_summary ∧
    ∀ m2 : List (CacheData × CacheEntry),
      get_cached_summary [] reportWithOld = get_cached_summary m2 reportWithOld :=
  claim_C10 [] reportWithOld (by decide)

/-- C7: with no credential configured the generator is disabled and
generate_summary returns no summary, performs zero HTTP attempts, prints no
error and leaves the analyzer state unchanged: a normal, non-error outcome. -/
theorem claim_C7 (st : AnalyzerState) (r : Report) (script : List Resp)
    (h : st.api_key = none) :
    generate_summary st r script = ⟨none, none, st, 0⟩ := by
  unfold generate_summary is_enabled
  rw [h]
  rfl

/-- Witness for C7 at a concrete disabled analyzer. -/
theorem claim_C7_witness :
    generate_summary ⟨none, []⟩ reportPlain [⟨200, ["text"], ""⟩] =
      ⟨none, none, ⟨none, []⟩, 0⟩ :=
  claim_C7 ⟨none, []⟩ reportPlain [⟨200, ["text"], ""⟩] rfl

/-- C9: filtering with an empty selected-targets list applies no target
restriction and returns the report list unchanged, and filtering with the
selection ["x"] returns the empty list when no report has target "x". -/
theorem claim_C9 (reports : List Report) :
    filter_reports reports ⟨[], none, "", none⟩ = reports ∧
    ((∀ r ∈ reports, r.target ≠ "x") →
      filter_reports reports ⟨["x"], none, "", none⟩ = []) := by
  constructor
  · unfold filter_reports
    by_cases h : reports = []
    · simp [h]
    · simp [h, pyStrip]
  · intro h
    unfold filter_reports
    by_cases he : reports = []
    · simp [he]
    · simp only [he, pyStrip, filter_by_date_range, if_false, ne_eq,
        List.cons_ne_self, not_false_eq_true, if_true, List.filter_eq_nil_iff,
        decide_eq_true_eq, List.mem_singleton]
      simp [pyStrip]
      exact h

def reportOther : Report :=
  { target := "y.com"
    scan_date := "2025-01-15"
    subdomains := []
    open_ports := []
    vulnerabilities := []
    ai_summary := none }

/-- Witness for C9 at a concrete one-report list with a different target. -/
theorem claim_C9_witness :
    filter_reports [reportOther] ⟨["x"], none, "", none⟩ = [] :=
  (claim_C9 [reportOther]).2 (by decide)

theorem kpiFold_ports (l : List Report) :
    ∀ (a : List String) (p v : Nat),
      (l.foldl
        (fun acc r =>
          (setUnionList acc.1 r.subdomains,
           acc.2.1 + r.open_ports.length,
           acc.2.2 + r.vulnerabilities.length))
        (a, p, v)).2.1
        = p + (l.map (fun r => r.open_ports.length)).sum := by
  induction l with
  | nil =>
    intro a p v
    simp
  | cons r rest ih =>
    intro a p v
    simp [List.foldl_cons, ih, Nat.add_assoc]

theorem kpiFold_portTotal (reports : List Report) :
    (kpiFold reports).2.1 = (reports.map (fun r => r.open_ports.length)).sum := by
  unfold kpiFold
  simpa using kpiFold_ports reports [] 0 0

theorem int_log2_eq {q : ℚ} {z : ℤ} (hq : 0 < q)
    (h1 : (2:ℚ) ^ z ≤ q) (h2 : q < (2:ℚ) ^ (z + 1)) : Int.log 2 q = z := by
  have hb : (1:ℕ) < 2 := by norm_num
  have hc : ((2:ℕ) : ℚ) = (2:ℚ) := by norm_num
  have hle : z ≤ Int.log 2 q := (Int.zpow_le_iff_le_log hb hq).mp (by rw [hc]; exact h1)
  have hlt : Int.log 2 q < z + 1 := (Int.lt_zpow_iff_log_lt hb hq).mp (by rw [hc]; exact h2)
  omega

theorem roundHalfEven_of_floor_lt {q : ℚ} {f : ℤ} (h1 : ⌊q⌋ = f) (h2 : q - f < 1/2) :
    roundHalfEven q = f := by
  unfold roundHalfEven
  rw [h1, if_pos h2]

theorem roundHalfEven_of_floor_gt {q : ℚ} {f : ℤ} (h1 : ⌊q⌋ = f) (h2 : 1/2 < q - f) :
    roundHalfEven q = f + 1 := by
  unfold roundHalfEven
  rw [h1, if_neg (by linarith), if_pos h2]

theorem toFloat_pos_eq {q : ℚ} {z m : ℤ} (hq : 0 < q)
    (h1 : (2:ℚ) ^ z ≤ q) (h2 : q < (2:ℚ) ^ (z + 1))
    (hm : roundHalfEven (q * (2:ℚ) ^ ((52:ℤ) - z)) = m) :
    toFloat q = (m : ℚ) * (2:ℚ) ^ (z - 52) := by
  unfold toFloat roundPos53
  rw [if_neg (ne_of_gt hq), if_pos hq, int_log2_eq hq h1 h2, hm]

/-- C4 (amended): calculate_kpis on the empty list returns exactly the zero
record with average 0.0, and on a non-empty list the average-open-ports
metric is the binary64 quotient of the total open-port count by the report
count, rounded to one decimal place the way the Python round builtin rounds
a float (correctly rounded decimal digit of the exact double value, ties to
even, converted back to binary64).  (The original claim omits the rounding;
see the counterexample.) -/
theorem claim_C4 :
    calculate_kpis [] = ⟨0, 0, 0, 0⟩ ∧
    ∀ reports : List Report, reports ≠ [] →
      (calculate_kpis reports).avg_open_ports =
        round1 (toFloat (((((reports.map (fun r => r.open_ports.length)).sum : ℕ)) : ℚ)
          / (reports.length : ℚ))) := by
  constructor
  · rfl
  · intro reports h
    unfold calculate_kpis
    rw [if_neg h]
    show round1 (toFloat (((kpiFold reports).2.1 : ℚ) / (reports.length : ℚ))) = _
    rw [kpiFold_portTotal]

/-- Witness for C4 at a concrete one-report list. -/
theorem claim_C4_witness :
    (calculate_kpis [reportPlain]).avg_open_ports =
      round1 (toFloat ((((([reportPlain].map (fun r => r.open_ports.length)).sum : ℕ)) : ℚ)
        / (([reportPlain] : List Report).length : ℚ))) :=
  claim_C4.2 [reportPlain] (by decide)

def reportNoPorts : Report :=
  { target := "z.com"
    scan_date := "2025-01-16"
    subdomains := []
    open_ports := []
    vulnerabilities := []
    ai_summary := none }

/-- Counterexample to C4 as stated: with four validated reports holding one
open port in total, the exact ratio is 0.25, which the program divides
exactly (0.25 is a binary64 value) and then rounds to the decimal 0.2 (an
exact tie, resolved to even), storing the binary64 nearest to 0.2; that
value is not the ratio one quarter. -/
theorem claim_C4_counterexample :
    (calculate_kpis [reportPlain, reportOther, reportWithOld, reportNoPorts]).avg_open_ports ≠
      (((([reportPlain, reportOther, reportWithOld, reportNoPorts].map
          (fun r => r.open_ports.length)).sum : ℕ) : ℚ)
        / (([reportPlain, reportOther, reportWithOld, reportNoPorts] : List Report).length : ℚ)) := by
  have hsum : (([reportPlain, reportOther, reportWithOld, reportNoPorts].map
      (fun r => r.open_ports.length)).sum : ℕ) = 1 := rfl
  have hlen : ([reportPlain, reportOther, reportWithOld, reportNoPorts] :
      List Report).length = 4 := rfl
  have h1 : (calculate_kpis
        [reportPlain, reportOther, reportWithOld, reportNoPorts]).avg_open_ports
      = round1 (toFloat ((1 : ℚ) / 4)) := by
    unfold calculate_kpis
    rw [if_neg (by decide)]
    show round1 (toFloat (((kpiFold
        [reportPlain, reportOther, reportWithOld, reportNoPorts]).2.1 : ℚ)
        / (([reportPlain, reportOther, reportWithOld, reportNoPorts] :
            List Report).length : ℚ))) = _
    rw [kpiFold_portTotal, hsum, hlen]
    norm_num
  have hA : toFloat ((1 : ℚ) / 4) = 1 / 4 := by
    have harg : (1 : ℚ) / 4 * (2:ℚ) ^ ((52:ℤ) - (-2)) = 4503599627370496 := by
      norm_num
    have hfl : ⌊(4503599627370496 : ℚ)⌋ = 4503599627370496 := by
      rw [Int.floor_eq_iff]
      constructor <;> norm_num
    have hm : roundHalfEven ((1 : ℚ) / 4 * (2:ℚ) ^ ((52:ℤ) - (-2))) = 4503599627370496 := by
      rw [harg]
      exact roundHalfEven_of_floor_lt hfl (by norm_num)
    have h := toFloat_pos_eq (z := -2) (by norm_num) (by norm_num) (by norm_num) hm
    rw [h]
    norm_num
  have hdec : roundHalfEven ((1 : ℚ) / 4 * 10) = 2 := by
    have harg : (1 : ℚ) / 4 * 10 = 5 / 2 := by norm_num
    have hfl : ⌊(5 : ℚ) / 2⌋ = 2 := by
      rw [Int.floor_eq_iff]
      constructor <;> norm_num
    rw [harg]
    unfold roundHalfEven
    rw [hfl, if_neg (by norm_num), if_neg (by norm_num), if_pos (by norm_num)]
  have hB : round1 ((1 : ℚ) / 4) = toFloat ((1 : ℚ) / 5) := by
    unfold round1
    rw [hdec]
    norm_num
  have hC : toFloat ((1 : ℚ) / 5) = (7205759403792794 : ℚ) * (2:ℚ) ^ ((-3 : ℤ) - 52) := by
    have harg : (1 : ℚ) / 5 * (2:ℚ) ^ ((52:ℤ) - (-3)) = 36028797018963968 / 5 := by
      norm_num
    have hfl : ⌊(36028797018963968 : ℚ) / 5⌋ = 7205759403792793 := by
      rw [Int.floor_eq_iff]
      constructor <;> norm_num
    have hm : roundHalfEven ((1 : ℚ) / 5 * (2:ℚ) ^ ((52:ℤ) - (-3))) = 7205759403792794 := by
      rw [harg]
      exact (roundHalfEven_of_floor_gt hfl (by norm_num)).trans (by norm_num)
    have h := toFloat_pos_eq (z := -3) (by norm_num) (by norm_num) (by norm_num) hm
    rw [h]
    norm_num
  rw [h1, hA, hB, hC, hsum, hlen]
  norm_num

/-- C3 (amended): the fingerprint is unchanged by reordering subdomains, by
reordering the port mapping, and by reordering vulnerabilities provided no
two of them share the same (severity, title) pair; equal fingerprints force
equal target, equal scan_date, and permutation-equal subdomains, port pairs
and projected vulnerability triples, so changing any of those changes the
fingerprint; and changing only affected_service or cve_id never changes it.
(The original claim allows reordering any same-set vulnerability lists; two
vulnerabilities sharing severity and title but differing in description make
the stable sort order-sensitive, see the counterexample.) -/
theorem claim_C3 (r1 r2 : Report) :
    (r1.target = r2.target → r1.scan_date = r2.scan_date →
      r1.subdomains.Perm r2.subdomains →
      r1.open_ports.Perm r2.open_ports →
      (r1.vulnerabilities.map vulnProj).Perm (r2.vulnerabilities.map vulnProj) →
      (r1.vulnerabilities.map vulnProj).Pairwise (fun a b => vKey a ≠ vKey b) →
      get_cache_key r1 = get_cache_key r2) ∧
    (get_cache_key r1 = get_cache_key r2 →
      r1.target = r2.target ∧ r1.scan_date = r2.scan_date ∧
      r1.subdomains.Perm r2.subdomains ∧
      r1.open_ports.Perm r2.open_ports ∧
      (r1.vulnerabilities.map vulnProj).Perm (r2.vulnerabilities.map vulnProj)) ∧
    (r1.target = r2.target → r1.scan_date = r2.scan_date →
      r1.subdomains = r2.subdomains → r1.open_ports = r2.open_ports →
      r1.vulnerabilities.map vulnProj = r2.vulnerabilities.map vulnProj →
      get_cache_key r1 = get_cache_key r2) := by
  refine ⟨?_, ?_, ?_⟩
  · intro ht hs hsub hport hvul hkeys
    unfold get_cache_key
    simp only [CacheData.mk.injEq]
    exact ⟨ht, hs, insertionSort_eq_of_perm hsub, insertionSort_eq_of_perm hport,
      insertionSort_key_eq_of_perm hvul hkeys⟩
  · intro h
    unfold get_cache_key at h
    simp only [CacheData.mk.injEq] at h
    obtain ⟨ht, hs, hsub, hport, hvul⟩ := h
    refine ⟨ht, hs, ?_, ?_, ?_⟩
    · have h1 := (List.perm_insertionSort strLeP r1.subdomains).symm
      rw [hsub] at h1
      exact h1.trans (List.perm_insertionSort strLeP r2.subdomains)
    · have h1 := (List.perm_insertionSort pairLeP r1.open_ports).symm
      rw [hport] at h1
      exact h1.trans (List.perm_insertionSort pairLeP r2.open_ports)
    · have h1 := (List.perm_insertionSort keyLeP (r1.vulnerabilities.map vulnProj)).symm
      rw [hvul] at h1
      exact h1.trans (List.perm_insertionSort keyLeP (r2.vulnerabilities.map vulnProj))
  · intro ht hs hsub hport hvul
    unfold get_cache_key
    simp only [CacheData.mk.injEq]
    exact ⟨ht, hs, by rw [hsub], by rw [hport], by rw [hvul]⟩

def vulnServiceA : Vulnerability :=
  ⟨some "high", some "SSH weak auth", some "password auth enabled", some "ssh", some "CVE-0001"⟩

def vulnServiceB : Vulnerability :=
  ⟨some "high", some "SSH weak auth", some "password auth enabled", some "openssh", none⟩

def reportSvcA : Report :=
  { target := "a.com", scan_date := "2025-02-01", subdomains := ["x.a.com"]
    open_ports := [("22", "ssh")], vulnerabilities := [vulnServiceA], ai_summary := none }

def reportSvcB : Report :=
  { target := "a.com", scan_date := "2025-02-01", subdomains := ["x.a.com"]
    open_ports := [("22", "ssh")], vulnerabilities := [vulnServiceB], ai_summary := none }

/-- Witness for C3: two reports differing only in affected_service and
cve_id receive the same fingerprint. -/
theorem claim_C3_witness : get_cache_key reportSvcA = get_cache_key reportSvcB :=
  (claim_C3 reportSvcA reportSvcB).2.2 rfl rfl rfl rfl (by decide)

def vulnDescA : Vulnerability :=
  ⟨some "high", some "Weak TLS", some "first description", none, none⟩

def vulnDescB : Vulnerability :=
  ⟨some "high", some "Weak TLS", some "second description", none, none⟩

def reportVulnsAB : Report :=
  { target := "a.com", scan_date := "2025-02-01", subdomains := []
    open_ports := [], vulnerabilities := [vulnDescA, vulnDescB], ai_summary := none }

def reportVulnsBA : Report :=
  { target := "a.com", scan_date := "2025-02-01", subdomains := []
    open_ports := [], vulnerabilities := [vulnDescB, vulnDescA], ai_summary := none }

/-- Counterexample to C3 as stated: two reports agreeing on every field and
on the set of projected vulnerability triples, but listing two
same-severity-same-title vulnerabilities in opposite order, receive
different fingerprints, because the sort key ignores the description and the
sort is stable. -/
theorem claim_C3_counterexample :
    reportVulnsAB.target = reportVulnsBA.target ∧
    reportVulnsAB.scan_date = reportVulnsBA.scan_date ∧
    reportVulnsAB.subdomains = reportVulnsBA.subdomains ∧
    reportVulnsAB.open_ports = reportVulnsBA.open_ports ∧
    (reportVulnsAB.vulnerabilities.map vulnProj).Perm
      (reportVulnsBA.vulnerabilities.map vulnProj) ∧
    get_cache_key reportVulnsAB ≠ get_cache_key reportVulnsBA := by
  refine ⟨rfl, rfl, rfl, rfl, ?_, by decide⟩
  exact List.Perm.swap (vulnProj vulnDescB) (vulnProj vulnDescA) []

/-- C5 (amended): on a transport-successful 200 response, an empty choices
array is a failure that changes no state; a present first choice whose text
strips to empty makes generate_summary return the empty-string summary and
record it in the in-memory transport cache, while the enhanced layer treats
it as a failure: no persistent-cache put and no report annotation; only a
non-empty summary triggers the persistent-cache put and the report
annotation.  (The original claim says no failure ever writes to a cache; the
empty-text case writes the in-memory transport cache, see the
counterexample.) -/
theorem claim_C5 (st : AnalyzerState) (r : Report)
    (hen : is_enabled st = true)
    (hmiss : alookup st.cache (generate_cache_key r) = none) :
    (∀ (body : String) (rest : List Resp),
      generate_summary st r (⟨200, [], body⟩ :: rest) =
        ⟨none, some "AI API Warning: Unexpected response format", st, 1⟩) ∧
    (∀ (content body : String) (rest : List Resp), pyStrip content = "" →
      generate_summary st r (⟨200, [content], body⟩ :: rest) =
        ⟨some "", none, { st with cache := aset st.cache (generate_cache_key r) "" }, 1⟩) ∧
    (∀ (rc : List (CacheData × CacheEntry)) (content body : String)
        (rest : List Resp) (now : Nat), pyStrip content = "" →
      generate_summary_for_report ⟨st, rc⟩ r true (⟨200, [content], body⟩ :: rest) now =
        ⟨some "", ⟨{ st with cache := aset st.cache (generate_cache_key r) "" }, rc⟩, r⟩) ∧
    (∀ (rc : List (CacheData × CacheEntry)) (content body : String)
        (rest : List Resp) (now : Nat), pyStrip content ≠ "" →
      generate_summary_for_report ⟨st, rc⟩ r true (⟨200, [content], body⟩ :: rest) now =
        ⟨some (pyStrip content),
         ⟨{ st with cache := aset st.cache (generate_cache_key r) (pyStrip content) },
          cache_summary rc r (pyStrip content) now⟩,
         { r with ai_summary := some (pyStrip content) }⟩) := by
  have hbase : ∀ (content body : String) (rest : List Resp),
      generate_summary st r (⟨200, [content], body⟩ :: rest) =
        ⟨some (pyStrip content), none,
         { st with cache := aset st.cache (generate_cache_key r) (pyStrip content) }, 1⟩ := by
    intro content body rest
    unfold generate_summary
    rw [hen]
    simp only [Bool.true_eq_false, if_false, hmiss]
    unfold retrySend
    simp [status_forcelist]
  refine ⟨?_, ?_, ?_, ?_⟩
  · intro body rest
    unfold generate_summary
    rw [hen]
    simp only [Bool.true_eq_false, if_false, hmiss]
    unfold retrySend
    simp [status_forcelist]
  · intro content body rest hc
    rw [hbase content body rest, hc]
  · intro rc content body rest now hc
    unfold generate_summary_for_report
    rw [hen]
    simp only [Bool.true_eq_false, if_false, if_true]
    rw [hbase content body rest, hc]
    simp [truthyOpt]
  · intro rc content body rest now hc
    unfold generate_summary_for_report
    rw [hen]
    simp only [Bool.true_eq_false, if_false, if_true]
    rw [hbase content body rest]
    simp [truthyOpt, hc]

/-- Witness for C5: a non-empty summary triggers the persistent-cache put
and the report annotation. -/
theorem claim_C5_witness :
    generate_summary_for_report ⟨⟨some "key", []⟩, []⟩ reportPlain true
        [⟨200, ["Good summary"], ""⟩] 5 =
      ⟨some (pyStrip "Good summary"),
       ⟨⟨some "key", aset [] (generate_cache_key reportPlain) (pyStrip "Good summary")⟩,
        cache_summary [] reportPlain (pyStrip "Good summary") 5⟩,
       { reportPlain with ai_summary := some (pyStrip "Good summary") }⟩ :=
  (claim_C5 ⟨some "key", []⟩ reportPlain (by decide) rfl).2.2.2
    [] "Good summary" "" [] 5 (by decide)

/-- Counterexample to C5 as stated: a 200 response whose only completion
choice strips to the empty string is not treated as a failure by
generate_summary: it returns the empty summary and writes it into the
in-memory transport cache, so a generation that produced no usable text did
write to a cache. -/
theorem claim_C5_counterexample :
    (generate_summary ⟨some "key", []⟩ reportPlain [⟨200, [" "], ""⟩]).summary = some "" ∧
    (generate_summary ⟨some "key", []⟩ reportPlain [⟨200, [" "], ""⟩]).state.cache ≠ [] := by
  refine ⟨by decide, by decide⟩

/-- C8 (amended): the prompt contains the target and scan date block; it
depends on the subdomain list only through its first ten elements and its
length, on the port list only through its first ten entries and its length,
and on the vulnerabilities only through the first five and the count; a
truncated subdomain or port list is marked with a bare "..." suffix, a
truncated vulnerability list with an "... and N more vulnerabilities" line;
and the fixed instruction block asking for risk level, key concerns, attack
vectors and recommendations ends the prompt.  (The original claim says the
subdomain and port truncations carry an "and N more" suffix; the source
appends only "..." there, see the counterexample.) -/
theorem claim_C8 (r : Report) :
    SubStr (promptScanInfo r) (format_prompt r) ∧
    (∀ r2 : Report, r.target = r2.target → r.scan_date = r2.scan_date →
      r.subdomains.take 10 = r2.subdomains.take 10 →
      r.subdomains.length = r2.subdomains.length →
      r.open_ports.take 10 = r2.open_ports.take 10 →
      r.open_ports.length = r2.open_ports.length →
      r.vulnerabilities.take 5 = r2.vulnerabilities.take 5 →
      r.vulnerabilities.length = r2.vulnerabilities.length →
      format_prompt r = format_prompt r2) ∧
    (r.subdomains.length > 10 → SubStr "..." (format_prompt r)) ∧
    (r.open_ports.length > 10 → SubStr "..." (format_prompt r)) ∧
    (r.vulnerabilities.length > 5 →
      SubStr ("... and " ++ toString (r.vulnerabilities.length - 5) ++ " more vulnerabilities\n")
        (format_prompt r)) ∧
    (∃ p, format_prompt r = p ++ promptInstructions) := by
  refine ⟨?_, ?_, ?_, ?_, ?_, ?_⟩
  · exact ⟨promptHeader, promptBody r ++ promptInstructions, by
      unfold format_prompt
      rw [strAppend_assoc]⟩
  · intro r2 h1 h2 h3 h4 h5 h6 h7 h8
    unfold format_prompt promptScanInfo promptBody promptSubdomains promptPorts
      promptVulnHeader promptVulnLines promptMore
    rw [h1, h2, h3, h4, h5, h6, h7, h8]
  · intro h
    have hsub : SubStr "..." (promptSubdomains r) := by
      unfold promptSubdomains
      rw [if_pos h]
      exact substr_suffix _ _
    have hb : SubStr "..." (promptBody r) := by
      unfold promptBody
      exact substr_left (substr_left (substr_left (substr_left hsub _) _) _) _
    unfold format_prompt
    exact substr_left (substr_right hb _) _
  · intro h
    have hport : SubStr "..." (promptPorts r) := by
      unfold promptPorts
      rw [if_pos h]
      exact substr_suffix _ _
    have hb : SubStr "..." (promptBody r) := by
      unfold promptBody
      exact substr_left (substr_left (substr_left (substr_right hport _) _) _) _
    unfold format_prompt
    exact substr_left (substr_right hb _) _
  · intro h
    have hm : SubStr ("... and " ++ toString (r.vulnerabilities.length - 5)
        ++ " more vulnerabilities\n") (promptMore r) := by
      unfold promptMore
      rw [if_pos h]
      exact substr_self _
    have hb : SubStr ("... and " ++ toString (r.vulnerabilities.length - 5)
        ++ " more vulnerabilities\n") (promptBody r) := by
      unfold promptBody
      exact substr_right hm _
    unfold format_prompt
    exact substr_left (substr_right hb _) _
  · exact ⟨(promptHeader ++ promptScanInfo r) ++ promptBody r, rfl⟩

def reportSixVulns : Report :=
  { target := "six.com"
    scan_date := "2025-03-01"
    subdomains := []
    open_ports := []
    vulnerabilities :=
      [⟨some "high", some "V1", none, none, none⟩,
       ⟨some "high", some "V2", none, none, none⟩,
       ⟨some "low", some "V3", none, none, none⟩,
       ⟨some "low", some "V4", none, none, none⟩,
       ⟨some "medium", some "V5", none, none, none⟩,
       ⟨some "critical", some "V6", none, none, none⟩]
    ai_summary := none }

/-- Witness for C8: with six vulnerabilities the prompt carries the
"... and 1 more vulnerabilities" line. -/
theorem claim_C8_witness :
    SubStr ("... and " ++ toString (reportSixVulns.vulnerabilities.length - 5)
        ++ " more vulnerabilities\n")
      (format_prompt reportSixVulns) :=
  (claim_C8 reportSixVulns).2.2.2.2.1 (by decide)

def reportElevenSubs : Report :=
  { target := "t"
    scan_date := "d"
    subdomains := ["a", "b", "c", "d", "e", "f", "g", "h", "i", "j", "k"]
    open_ports := []
    vulnerabilities := []
    ai_summary := none }

/-- Counterexample to C8 as stated: a report with eleven subdomains has its
subdomain list truncated, yet the prompt nowhere contains the word more, so
no "and N more" suffix marks the truncation, only the bare ellipsis. -/
theorem claim_C8_counterexample :
    reportElevenSubs.subdomains.length > 10 ∧
    ¬ SubStr "more" (format_prompt reportElevenSubs) := by
  constructor
  · decide
  · intro h
    have hocc := h.occurs
    have hfalse : occursB "more".data (format_prompt reportElevenSubs).data = false := by decide
    exact absurd (hocc.symm.trans hfalse) (by simp)

end ShadowHunter
